import Mathlib

/-!
Verification development for the rc-car repository.

The repository has two structurally identical frame generators
(TestPatternVideoTrack in rc_car.py and in src/video/test_pattern.py),
a WebRTC session negotiator (src/network/web_rtc_client.py) and a
command sink (src/control/dummy_motor.py).  Pure rendering code is
embedded as Lean functions; stateful handlers are embedded as explicit
state-passing functions; Python exceptions are embedded with Except.
-/

namespace RcCar

/-- One pixel value: a BGR triple of 8-bit channel values, as stored in
the numpy raster of shape (height, width, 3). -/
abbrev Color := Nat × Nat × Nat

/-- The zero initialization of np.zeros: every channel 0. -/
def black : Color := (0, 0, 0)

/-- State of a TestPatternVideoTrack object: width, height, fps from
the constructor and the mutable frame counter. -/
structure TrackState where
  width : Nat
  height : Nat
  fps : Nat
  counter : Nat
deriving Repr, DecidableEq

/-- A produced video frame.  The seven colour bars paint whole pixel
columns, every row identically, so the bar raster is a function from
column index to colour.  The cv2.putText overlay is external rasterizer
code; it is embedded abstractly by recording the text drawn at the
fixed position (10, 30): in any frame large enough to show the label
(such as the default 640 by 480) distinct texts rasterize to distinct
pixels there.  pts and timeBase come from the media pipeline clock. -/
structure Frame where
  width : Nat
  height : Nat
  bars : Nat → Color
  label : String
  pts : Nat
  timeBase : ℚ

namespace Video

/-- The colour list of src/video/test_pattern.py, in source order:
white, yellow, cyan, green, magenta, red, blue. -/
def colors : List Color :=
  [(255, 255, 255), (255, 255, 0), (0, 255, 255), (0, 255, 0),
   (255, 0, 255), (255, 0, 0), (0, 0, 255)]

/-- Constructor of TestPatternVideoTrack in src/video/test_pattern.py:
counter starts at 0. -/
def initTrack (width height fps : Nat) : TrackState :=
  { width := width, height := height, fps := fps, counter := 0 }

/-- One loop iteration of recv for bar index i, with
x_start = (i * bar_width + offset) % width and
x_end = min(x_start + bar_width, width): the numpy write
frame[:, x_start:x_end] = color followed, when x_start + bar_width
exceeds the width, by the wraparound write frame[:, 0:overflow] = color
with overflow = x_start + bar_width - width.  Functionally the later
write wins, and both write the same colour. -/
def drawBar (width barWidth offset i : Nat) (color : Color)
    (f : Nat → Color) (x : Nat) : Color :=
  if (i * barWidth + offset) % width + barWidth > width ∧
      x < (i * barWidth + offset) % width + barWidth - width then color
  else if (i * barWidth + offset) % width ≤ x ∧
      x < min ((i * barWidth + offset) % width + barWidth) width then color
  else f x

/-- The for-loop over enumerate(colors), starting at bar index i0,
threading the raster through successive bar writes. -/
def drawBarsFrom (width barWidth offset : Nat) :
    Nat → List Color → (Nat → Color) → (Nat → Color)
  | _, [], f => f
  | i, c :: rest, f =>
      drawBarsFrom width barWidth offset (i + 1) rest
        (drawBar width barWidth offset i c f)

/-- The bar raster of one recv call at a given counter value:
bar_width = width // 7, offset = counter % width, bars drawn over the
zero-initialized frame. -/
def renderBars (width counter : Nat) : Nat → Color :=
  drawBarsFrom width (width / 7) (counter % width) 0 colors (fun _ => black)

/-- The source line offset = (self.counter % self.width). -/
def barOffset (s : TrackState) : Nat :=
  s.counter % s.width

/-- recv of src/video/test_pattern.py: renders the bar pattern, draws
the text label with the current counter, increments the counter, and
returns the frame stamped with the pipeline pts/time base. -/
def recv (s : TrackState) (pts : Nat) (timeBase : ℚ) : TrackState × Frame :=
  let frame : Frame :=
    { width := s.width
      height := s.height
      bars := renderBars s.width s.counter
      label := "Frame: " ++ toString s.counter
      pts := pts
      timeBase := timeBase }
  ({ s with counter := s.counter + 1 }, frame)

/-- Repeated recv calls: n successive frames pulled from the track,
fed presentation timestamps and time bases from the pipeline clock. -/
def runTrack (ptsSeq : Nat → Nat) (tbSeq : Nat → ℚ) (s : TrackState) :
    Nat → TrackState
  | 0 => s
  | n + 1 => (recv (runTrack ptsSeq tbSeq s n) (ptsSeq n) (tbSeq n)).1

end Video

namespace Legacy

/-- The colour list of the TestPatternVideoTrack copy in rc_car.py. -/
def colors : List Color :=
  [(255, 255, 255), (255, 255, 0), (0, 255, 255), (0, 255, 0),
   (255, 0, 255), (255, 0, 0), (0, 0, 255)]

/-- Constructor of the TestPatternVideoTrack copy in rc_car.py. -/
def initTrack (width height fps : Nat) : TrackState :=
  { width := width, height := height, fps := fps, counter := 0 }

/-- One bar write of the rc_car.py copy of recv, with
x_start = (i * bar_width + offset) % width and
x_end = min(x_start + bar_width, width). -/
def drawBar (width barWidth offset i : Nat) (color : Color)
    (f : Nat → Color) (x : Nat) : Color :=
  if (i * barWidth + offset) % width + barWidth > width ∧
      x < (i * barWidth + offset) % width + barWidth - width then color
  else if (i * barWidth + offset) % width ≤ x ∧
      x < min ((i * barWidth + offset) % width + barWidth) width then color
  else f x

/-- The enumerate(colors) loop of the rc_car.py copy. -/
def drawBarsFrom (width barWidth offset : Nat) :
    Nat → List Color → (Nat → Color) → (Nat → Color)
  | _, [], f => f
  | i, c :: rest, f =>
      drawBarsFrom width barWidth offset (i + 1) rest
        (drawBar width barWidth offset i c f)

/-- The bar raster of one recv call of the rc_car.py copy. -/
def renderBars (width counter : Nat) : Nat → Color :=
  drawBarsFrom width (width / 7) (counter % width) 0 colors (fun _ => black)

/-- recv of the rc_car.py copy of TestPatternVideoTrack. -/
def recv (s : TrackState) (pts : Nat) (timeBase : ℚ) : TrackState × Frame :=
  let frame : Frame :=
    { width := s.width
      height := s.height
      bars := renderBars s.width s.counter
      label := "Frame: " ++ toString s.counter
      pts := pts
      timeBase := timeBase }
  ({ s with counter := s.counter + 1 }, frame)

end Legacy

/-- Column x of a frame of the given width lies inside the slice
written for bar i: either the wraparound slice [0, overflow) or the
main slice [x_start, x_end), matching the two write conditions of
drawBar. -/
def covered (width barWidth offset i x : Nat) : Prop :=
  ((i * barWidth + offset) % width + barWidth > width ∧
    x < (i * barWidth + offset) % width + barWidth - width) ∨
  ((i * barWidth + offset) % width ≤ x ∧
    x < min ((i * barWidth + offset) % width + barWidth) width)

/-- A JSON value as carried by the signaling payloads and the control
data channel. -/
inductive JsonVal where
  | str (s : String)
  | num (q : ℚ)
  | null
deriving Repr, DecidableEq

/-- A parsed JSON object: key/value pairs in document order. -/
abbrev JsonObj := List (String × JsonVal)

/-- Python dict key lookup returning None when the key is absent. -/
def jsonGet (o : JsonObj) (k : String) : Option JsonVal :=
  (o.find? (fun p => p.1 == k)).map (fun p => p.2)

namespace Control

/-- The expression command.get(key, default) of dummy_motor.py. -/
def dict_get (command : JsonObj) (k : String) (default : JsonVal) : JsonVal :=
  (jsonGet command k).getD default

/-- DummyMotorController.process_command of src/control/dummy_motor.py:
reads w and a with default 0.0 and logs them with the format spec .2f.
The format spec raises a Python error on a non-numeric value, so the
result is the pair of numbers that are logged, or an error.  The float
values are embedded as rationals; no arithmetic is performed on them. -/
def process_command (command : JsonObj) : Except String (ℚ × ℚ) :=
  match dict_get command "w" (JsonVal.num 0), dict_get command "a" (JsonVal.num 0) with
  | JsonVal.num w, JsonVal.num a => Except.ok (w, a)
  | _, _ => Except.error "TypeError: unsupported format string"

end Control

namespace Network

/-- An aiortc RTCSessionDescription: an sdp body and a type tag. -/
structure RTCSessionDescription where
  sdp : String
  type : String
deriving Repr, DecidableEq

/-- An inbound ICE candidate as constructed by handle_ice_candidate. -/
structure RTCIceCandidate where
  candidate : String
  sdpMid : String
  sdpMLineIndex : ℚ
deriving Repr, DecidableEq

/-- One STUN server entry of the RTCConfiguration. -/
structure RTCIceServer where
  urls : List String
deriving Repr, DecidableEq

/-- The fixed STUN server list built in the peer-connection setup. -/
def iceServers : List RTCIceServer :=
  [⟨["stun:stun.l.google.com:19302"]⟩, ⟨["stun:stun1.l.google.com:19302"]⟩]

/-- The observable state of an aiortc RTCPeerConnection as used by this
client: its configuration, the local and remote descriptions, the
candidates added so far and whether close() has been called. -/
structure RTCPeerConnection where
  config : List RTCIceServer
  localDescription : Option RTCSessionDescription
  remoteDescription : Option RTCSessionDescription
  addedCandidates : List RTCIceCandidate
  isClosed : Bool
deriving Repr, DecidableEq

/-- A freshly constructed RTCPeerConnection(configuration=config). -/
def newPeerConnection (config : List RTCIceServer) : RTCPeerConnection :=
  { config := config
    localDescription := none
    remoteDescription := none
    addedCandidates := []
    isClosed := false }

/-- A data channel handle; the client creates one named control. -/
structure RTCDataChannel where
  label : String
deriving Repr, DecidableEq

/-- A payload emitted on the signaling transport: register-car sends the
plain room code, offer and ice-candidate send an object of string
fields whose serialized parts were produced by json.dumps. -/
inductive EmitPayload where
  | text (s : String)
  | obj (fields : List (String × String))
deriving Repr, DecidableEq

/-- A serialized inbound signaling payload, after data.get(key):
absent when the key was missing (json.loads(None) raises TypeError),
malformed when json.loads raises, object when it parses to a dict. -/
inductive SerializedPayload where
  | absent
  | malformed (raw : String)
  | object (o : JsonObj)
deriving Repr, DecidableEq

/-- State of an RCCarWebRTCClient: constructor arguments, the socket.io
connection flag, the lazily created peer connection, data channel and
video track, and the trace of events emitted on the signaling
transport.  The motor controller collaborator is modelled by the
Control namespace; the video track factory is constructor injected. -/
structure ClientState where
  room_code : String
  signaling_url : String
  video_track_factory : Unit → TrackState
  sio_connected : Bool
  pc : Option RTCPeerConnection
  datachannel : Option RTCDataChannel
  video_track : Option TrackState
  emitted : List (String × EmitPayload)

/-- RCCarWebRTCClient.__init__: no peer connection, data channel or
video track yet, nothing emitted. -/
def newClient (room_code signaling_url : String)
    (factory : Unit → TrackState) : ClientState :=
  { room_code := room_code
    signaling_url := signaling_url
    video_track_factory := factory
    sio_connected := false
    pc := none
    datachannel := none
    video_track := none
    emitted := [] }

/-- RCCarWebRTCClient.initialize_peer_connection (the Python name):
builds a peer connection with the fixed STUN configuration, creates the
data channel named control, registers the event reactions (embedded as
the handler functions below), obtains a video track from the injected
factory and attaches it. -/
def init_peer_connection (s : ClientState) : ClientState :=
  { s with
    pc := some (newPeerConnection iceServers)
    datachannel := some { label := "control" }
    video_track := some (s.video_track_factory ()) }

/-- The guard at the top of create_offer: if self.pc is None the
initialization path runs, otherwise nothing happens. -/
def ensure_peer_connection (s : ClientState) : ClientState :=
  if s.pc.isNone then init_peer_connection s else s

/-- json.dumps of the offer_data dict, in insertion order type then
sdp. -/
def json_dumps_desc (d : RTCSessionDescription) : String :=
  "\x7b\"type\": \"" ++ d.type ++ "\", \"sdp\": \"" ++ d.sdp ++ "\"\x7d"

/-- RCCarWebRTCClient.create_offer.  The aiortc createOffer call is an
external capability whose outcome is the parameter gen; on success the
description is set as local description, read back and serialized into
exactly one offer emit tagged with the room code.  The surrounding
try/except catches every failure, so the function is total and a
failure leaves the state reached so far. -/
def create_offer (gen : Except String RTCSessionDescription)
    (s : ClientState) : ClientState :=
  let s1 := ensure_peer_connection s
  match gen with
  | Except.error _ => s1
  | Except.ok offer =>
    match s1.pc with
    | none => s1
    | some p =>
      let p1 := { p with localDescription := some offer }
      let s2 := { s1 with pc := some p1 }
      match p1.localDescription with
      | none => s2
      | some d =>
        { s2 with
          emitted := s2.emitted ++
            [("offer", EmitPayload.obj
              [("roomCode", s2.room_code), ("offer", json_dumps_desc d)])] }

/-- The socket.io reaction for controller-joined: its body is a single
awaited call to create_offer; the event data is ignored. -/
def on_controller_joined (gen : Except String RTCSessionDescription)
    (_data : JsonObj) (s : ClientState) : ClientState :=
  create_offer gen s

/-- The deserialization steps of handle_answer: json.loads of the
answer entry, then the dict reads answer_data of sdp and of type.  A
missing data key, undecodable text, a missing dict key or a non-string
value produces a Python exception, embedded as an error. -/
def parse_answer : SerializedPayload → Except String RTCSessionDescription
  | SerializedPayload.absent => Except.error "TypeError: json.loads(None)"
  | SerializedPayload.malformed _ => Except.error "json.JSONDecodeError"
  | SerializedPayload.object o =>
    match jsonGet o "sdp" with
    | some (JsonVal.str sdp) =>
      match jsonGet o "type" with
      | some (JsonVal.str ty) => Except.ok { sdp := sdp, type := ty }
      | _ => Except.error "KeyError: type"
    | _ => Except.error "KeyError: sdp"

/-- The body of the try block of handle_answer: deserialize, then
self.pc.setRemoteDescription(answer).  With no peer connection the
attribute access raises; with no local offer set the peer-connection
library rejects the answer; both are embedded as errors. -/
def handle_answer_attempt (s : ClientState) (payload : SerializedPayload) :
    Except String ClientState := do
  let answer ← parse_answer payload
  match s.pc with
  | none => Except.error "AttributeError: NoneType has no setRemoteDescription"
  | some p =>
    if p.localDescription.isNone then
      Except.error "InvalidStateError: answer before local offer"
    else
      Except.ok { s with pc := some { p with remoteDescription := some answer } }

/-- RCCarWebRTCClient.handle_answer: the try/except wrapper around
handle_answer_attempt.  Every failure is logged and swallowed, so the
caller always receives ok. -/
def handle_answer (s : ClientState) (payload : SerializedPayload) :
    Except String ClientState :=
  match handle_answer_attempt s payload with
  | Except.ok s1 => Except.ok s1
  | Except.error _ => Except.ok s

/-- The payloads the claim calls malformed: missing answer key,
undecodable text, or a decoded object without a string sdp entry. -/
def malformed_answer : SerializedPayload → Prop
  | SerializedPayload.absent => True
  | SerializedPayload.malformed _ => True
  | SerializedPayload.object o =>
    match jsonGet o "sdp" with
    | some (JsonVal.str _) => False
    | _ => True

/-- The deserialization steps of handle_ice_candidate: json.loads of
the candidate entry, then the dict reads of candidate, sdpMid and
sdpMLineIndex feeding the RTCIceCandidate constructor. -/
def parse_ice_candidate : SerializedPayload → Except String RTCIceCandidate
  | SerializedPayload.absent => Except.error "TypeError: json.loads(None)"
  | SerializedPayload.malformed _ => Except.error "json.JSONDecodeError"
  | SerializedPayload.object o =>
    match jsonGet o "candidate" with
    | some (JsonVal.str c) =>
      match jsonGet o "sdpMid" with
      | some (JsonVal.str mid) =>
        match jsonGet o "sdpMLineIndex" with
        | some (JsonVal.num idx) =>
          Except.ok { candidate := c, sdpMid := mid, sdpMLineIndex := idx }
        | _ => Except.error "KeyError: sdpMLineIndex"
      | _ => Except.error "KeyError: sdpMid"
    | _ => Except.error "KeyError: candidate"

/-- The body of the try block of handle_ice_candidate: deserialize, then
self.pc.addIceCandidate(candidate).  The add itself belongs to the
peer-connection capability and may fail, so its outcome is the
parameter addIce; with no peer connection the attribute access
raises. -/
def handle_ice_candidate_attempt
    (addIce : RTCPeerConnection → RTCIceCandidate → Except String RTCPeerConnection)
    (s : ClientState) (payload : SerializedPayload) :
    Except String ClientState := do
  let cand ← parse_ice_candidate payload
  match s.pc with
  | none => Except.error "AttributeError: NoneType has no addIceCandidate"
  | some p => do
    let p1 ← addIce p cand
    Except.ok { s with pc := some p1 }

/-- RCCarWebRTCClient.handle_ice_candidate: the try/except wrapper.
Every failure is logged and swallowed, so the caller always receives
ok. -/
def handle_ice_candidate
    (addIce : RTCPeerConnection → RTCIceCandidate → Except String RTCPeerConnection)
    (s : ClientState) (payload : SerializedPayload) :
    Except String ClientState :=
  match handle_ice_candidate_attempt addIce s payload with
  | Except.ok s1 => Except.ok s1
  | Except.error _ => Except.ok s

/-- aiortc RTCPeerConnection.close(): documented as safe on an already
closed connection; it only marks the connection closed. -/
def pc_close (p : RTCPeerConnection) : RTCPeerConnection :=
  { p with isClosed := true }

/-- The externally visible actions of cleanup. -/
inductive CleanupAction where
  | pcClose
  | sioDisconnect
deriving Repr, DecidableEq

/-- RCCarWebRTCClient.cleanup: closes the peer connection if one
exists, then disconnects the signaling transport if currently
connected.  Returns the new state together with the actions
performed. -/
def cleanup (s : ClientState) : ClientState × List CleanupAction :=
  let step1 : ClientState × List CleanupAction :=
    match s.pc with
    | some p => ({ s with pc := some (pc_close p) }, [CleanupAction.pcClose])
    | none => (s, [])
  if step1.1.sio_connected then
    ({ step1.1 with sio_connected := false },
      step1.2 ++ [CleanupAction.sioDisconnect])
  else
    step1

end Network

section Theorems

example : Video.renderBars 8 0 7 = black := by decide

example : Video.renderBars 7 0 0 = (255, 255, 255) := by decide

example : Video.renderBars 7 0 6 = (0, 0, 255) := by decide

example : Video.renderBars 7 3 2 = (0, 0, 255) := by decide

lemma string_eq_empty_of_length_eq_zero (s : String) (h : s.length = 0) :
    s = "" := by
  cases s with
  | mk data =>
      cases data with
      | nil => rfl
      | cons c cs => simp [String.length] at h

lemma drawBar_apply_of_covered (width barWidth offset i x : Nat) (c : Color)
    (f : Nat → Color) (h : covered width barWidth offset i x) :
    Video.drawBar width barWidth offset i c f x = c := by
  unfold covered at h
  unfold Video.drawBar
  split_ifs with h1 h2
  · rfl
  · rfl
  · exact absurd h (by tauto)

lemma drawBar_ne_black (width barWidth offset i : Nat) (c : Color)
    (f : Nat → Color) (x : Nat) (hc : c ≠ black) (hf : f x ≠ black) :
    Video.drawBar width barWidth offset i c f x ≠ black := by
  unfold Video.drawBar
  split_ifs with h1 h2
  · exact hc
  · exact hc
  · exact hf

lemma drawBarsFrom_ne_black (width barWidth offset : Nat) (cs : List Color) :
    ∀ (i0 : Nat) (f : Nat → Color) (x : Nat),
      (∀ c ∈ cs, c ≠ black) →
      (f x ≠ black ∨ ∃ j, j < cs.length ∧ covered width barWidth offset (i0 + j) x) →
      Video.drawBarsFrom width barWidth offset i0 cs f x ≠ black := by
  induction cs with
  | nil =>
      intro i0 f x _ h
      rcases h with h | ⟨j, hj, _⟩
      · simpa [Video.drawBarsFrom] using h
      · simp at hj
  | cons c rest ih =>
      intro i0 f x hcs h
      have hc : c ≠ black := hcs c (List.mem_cons_self c rest)
      rw [Video.drawBarsFrom]
      apply ih (i0 + 1) _ x (fun d hd => hcs d (List.mem_cons_of_mem c hd))
      rcases h with hf | ⟨j, hj, hcov⟩
      · exact Or.inl (drawBar_ne_black width barWidth offset i0 c f x hc hf)
      · cases j with
        | zero =>
            refine Or.inl ?_
            rw [drawBar_apply_of_covered width barWidth offset i0 x c f
              (by simpa using hcov)]
            exact hc
        | succ j =>
            refine Or.inr ⟨j, ?_, ?_⟩
            · simp only [List.length_cons] at hj
              omega
            · have harith : i0 + 1 + j = i0 + (j + 1) := by omega
              rw [harith]
              exact hcov

lemma covered_exists (k off x : Nat) (hk : 0 < k) (hoff : off < 7 * k)
    (hx : x < 7 * k) : ∃ i, i < 7 ∧ covered (7 * k) k off i x := by
  obtain ⟨q, hqW, hqx⟩ : ∃ q, q < 7 * k ∧ (q + off) % (7 * k) = x := by
    refine ⟨(x + 7 * k - off) % (7 * k), Nat.mod_lt _ (by omega), ?_⟩
    rw [Nat.mod_add_mod, Nat.sub_add_cancel (by omega), Nat.add_mod_right,
      Nat.mod_eq_of_lt hx]
  refine ⟨q / k, (Nat.div_lt_iff_lt_mul hk).mpr (by omega), ?_⟩
  obtain ⟨m, r, hm6, hrk, hmq, hmk⟩ :
      ∃ m r, m ≤ 6 * k ∧ r < k ∧ m + r = q ∧ m = q / k * k := by
    refine ⟨q / k * k, q % k, ?_, Nat.mod_lt _ hk, ?_, rfl⟩
    · have h7 : q / k < 7 := (Nat.div_lt_iff_lt_mul hk).mpr (by omega)
      exact Nat.mul_le_mul_right k (by omega)
    · rw [Nat.mul_comm]
      exact Nat.div_add_mod q k
  unfold covered
  rw [← hmk]
  by_cases hc : m + off < 7 * k
  · have hxs : (m + off) % (7 * k) = m + off := Nat.mod_eq_of_lt hc
    by_cases h2 : q + off < 7 * k
    · have hxx : x = q + off := by rw [← hqx, Nat.mod_eq_of_lt h2]
      refine Or.inr ?_
      rw [hxs]
      exact ⟨by omega, lt_min (by omega) (by omega)⟩
    · have hxx : x = q + off - 7 * k := by
        rw [← hqx, Nat.mod_eq_sub_mod (le_of_not_lt h2),
          Nat.mod_eq_of_lt (by omega)]
      refine Or.inl ?_
      rw [hxs]
      constructor
      · omega
      · omega
  · have hge : 7 * k ≤ m + off := le_of_not_lt hc
    have hxs : (m + off) % (7 * k) = m + off - 7 * k := by
      rw [Nat.mod_eq_sub_mod hge, Nat.mod_eq_of_lt (by omega)]
    have hxx : x = q + off - 7 * k := by
      rw [← hqx, Nat.mod_eq_sub_mod (by omega), Nat.mod_eq_of_lt (by omega)]
    refine Or.inr ?_
    rw [hxs]
    exact ⟨by omega, lt_min (by omega) (by omega)⟩

/-- C1 counterexample: the claim quantifies over every positive width,
but at width 8 (bar_width = 8 // 7 = 1) the first render (counter 0)
leaves pixel column 7 at the zero-initialization colour. -/
theorem claim1_counterexample :
    0 < 8 ∧ 7 < 8 ∧ Video.renderBars 8 0 7 = black := by
  decide

/-- C1 (amended): for every width that is a positive multiple of 7,
a single frame render draws the 7 colour bars so that together they
cover every pixel column of the frame, including the wrapped-around
portion, and no pixel column retains the zero-initialization colour. -/
theorem claim1_bars_cover_every_column (k counter x : Nat) (hk : 0 < k)
    (hx : x < 7 * k) :
    Video.colors.length = 7 ∧ Video.renderBars (7 * k) counter x ≠ black := by
  refine ⟨rfl, ?_⟩
  have hbw : 7 * k / 7 = k := by omega
  have hoffw : counter % (7 * k) < 7 * k := Nat.mod_lt _ (by omega)
  unfold Video.renderBars
  rw [hbw]
  apply drawBarsFrom_ne_black
  · decide
  · refine Or.inr ?_
    obtain ⟨i, hi7, hcov⟩ := covered_exists k (counter % (7 * k)) x hk hoffw hx
    have hlen : Video.colors.length = 7 := rfl
    refine ⟨i, ?_, ?_⟩
    · rw [hlen]
      exact hi7
    · simpa using hcov

/-- C1 witness: at width 14 (k = 2), counter 5, column 9 the render is
some bar colour, not black. -/
theorem claim1_witness :
    0 < 2 ∧ 9 < 7 * 2 ∧
      (Video.colors.length = 7 ∧ Video.renderBars (7 * 2) 5 9 ≠ black) :=
  ⟨by decide, by decide, claim1_bars_cover_every_column 2 5 9 (by decide) (by decide)⟩

/-- C2 (amended): for every frame index n the scroll offset equals
n mod width, and the bar raster rendered at counter n equals the one
rendered at counter n + width; the full frame is not pixel-identical
because the overlaid counter label differs. -/
theorem claim2_offset_and_bar_periodicity (w h fps n pts : Nat) (tb : ℚ)
    (_hw : 0 < w) :
    Video.barOffset { width := w, height := h, fps := fps, counter := n } = n % w ∧
    ((Video.recv { width := w, height := h, fps := fps, counter := n + w } pts tb).2).bars
      = ((Video.recv { width := w, height := h, fps := fps, counter := n } pts tb).2).bars := by
  refine ⟨rfl, ?_⟩
  show Video.renderBars w (n + w) = Video.renderBars w n
  unfold Video.renderBars
  rw [Nat.add_mod_right]

/-- C2 witness: width 1, frame index 3. -/
theorem claim2_witness :
    0 < 1 ∧
      (Video.barOffset { width := 1, height := 1, fps := 30, counter := 3 } = 3 % 1 ∧
        ((Video.recv { width := 1, height := 1, fps := 30, counter := 3 + 1 } 0 1).2).bars
          = ((Video.recv { width := 1, height := 1, fps := 30, counter := 3 } 0 1).2).bars) :=
  ⟨by decide, claim2_offset_and_bar_periodicity 1 1 30 3 0 1 (by decide)⟩

/-- C2 counterexample: at the default 640 by 480 geometry the frames
produced at counter 0 and at counter 0 + width are not pixel-identical,
because the overlaid label text differs (Frame: 0 against
Frame: 640). -/
theorem claim2_counterexample :
    (Video.recv { width := 640, height := 480, fps := 30, counter := 0 + 640 } 0 1).2
      ≠ (Video.recv { width := 640, height := 480, fps := 30, counter := 0 } 0 1).2 := by
  intro hEq
  exact absurd (congrArg Frame.label hEq) (by decide)

/-- C3: the initialization path as triggered by create_offer is
idempotent: when a peer connection already exists the guard skips
init_peer_connection, leaving the peer connection, data channel and
video track (the whole client state) unchanged, so no duplicate peer
connection or data channel is created. -/
theorem claim3_initialization_idempotent (s : Network.ClientState)
    (p : Network.RTCPeerConnection) (h : s.pc = some p) :
    Network.ensure_peer_connection s = s := by
  unfold Network.ensure_peer_connection
  rw [h]
  rfl

/-- C3 witness: a client that already ran the initialization path is
left unchanged by a second pass through the guard. -/
theorem claim3_witness :
    (Network.init_peer_connection
        (Network.newClient "CAR001" "http://localhost:8080"
          (fun _ => Video.initTrack 640 480 30))).pc
      = some (Network.newPeerConnection Network.iceServers) ∧
    Network.ensure_peer_connection
        (Network.init_peer_connection
          (Network.newClient "CAR001" "http://localhost:8080"
            (fun _ => Video.initTrack 640 480 30)))
      = Network.init_peer_connection
          (Network.newClient "CAR001" "http://localhost:8080"
            (fun _ => Video.initTrack 640 480 30)) :=
  ⟨rfl, claim3_initialization_idempotent _ _ rfl⟩

/-- C4: for every malformed answer payload (in particular one whose
serialized answer lacks the sdp key) the deserialization inside the try
block fails, the exception is caught, handle_answer returns ok with the
state exactly as before the call: no remote description is set and the
peer connection, data channel and video track handles are unchanged. -/
theorem claim4_handle_answer_malformed_no_change (s : Network.ClientState)
    (payload : Network.SerializedPayload) (h : Network.malformed_answer payload) :
    (∃ e, Network.handle_answer_attempt s payload = Except.error e) ∧
    Network.handle_answer s payload = Except.ok s := by
  have hp : ∃ e, Network.parse_answer payload = Except.error e := by
    cases payload with
    | absent => exact ⟨_, rfl⟩
    | malformed raw => exact ⟨_, rfl⟩
    | object o =>
        simp only [Network.malformed_answer] at h
        simp only [Network.parse_answer]
        cases hs : jsonGet o "sdp" with
        | none =>
            exact ⟨_, rfl⟩
        | some v =>
            cases v with
            | str t =>
                rw [hs] at h
                exact False.elim h
            | num q => exact ⟨_, rfl⟩
            | null => exact ⟨_, rfl⟩
  obtain ⟨e, he⟩ := hp
  have hatt : Network.handle_answer_attempt s payload = Except.error e := by
    unfold Network.handle_answer_attempt
    rw [he]
    rfl
  refine ⟨⟨e, hatt⟩, ?_⟩
  unfold Network.handle_answer
  rw [hatt]

/-- C4 witness: a payload whose decoded object has a type entry but no
sdp entry is caught and leaves a freshly constructed client state
untouched. -/
theorem claim4_witness :
    Network.malformed_answer
      (Network.SerializedPayload.object [("type", JsonVal.str "answer")]) ∧
    Network.handle_answer
        (Network.newClient "CAR001" "http://localhost:8080"
          (fun _ => Video.initTrack 640 480 30))
        (Network.SerializedPayload.object [("type", JsonVal.str "answer")])
      = Except.ok
          (Network.newClient "CAR001" "http://localhost:8080"
            (fun _ => Video.initTrack 640 480 30)) :=
  ⟨by trivial,
    (claim4_handle_answer_malformed_no_change _ _ (by trivial)).2⟩

/-- C5: one controller-joined signaling event runs create_offer once;
when the createOffer capability succeeds with a description d whose sdp
body is non-empty, exactly one offer event is emitted, its payload is
the object of roomCode and the json.dumps serialization of the type and
sdp of the local description, the local description is d, and the
serialized body is non-empty. -/
theorem claim5_single_offer_emit (gen : Except String Network.RTCSessionDescription)
    (d : Network.RTCSessionDescription) (data : JsonObj)
    (s : Network.ClientState) (hgen : gen = Except.ok d) (hsdp : d.sdp ≠ "") :
    (Network.on_controller_joined gen data s).emitted
        = s.emitted ++ [("offer", Network.EmitPayload.obj
            [("roomCode", s.room_code), ("offer", Network.json_dumps_desc d)])] ∧
    (∃ p, (Network.on_controller_joined gen data s).pc = some p ∧
        p.localDescription = some d) ∧
    Network.json_dumps_desc d ≠ "" ∧
    Network.json_dumps_desc d
      ≠ Network.json_dumps_desc { sdp := "", type := d.type } := by
  subst hgen
  have hne : Network.json_dumps_desc d ≠ "" := by
    intro hemp
    have hfl := congrArg String.length hemp
    simp only [Network.json_dumps_desc, String.length_append] at hfl
    have h1 : ("\x7b\"type\": \"" : String).length = 10 := by decide
    have h0 : ("" : String).length = 0 := by decide
    rw [h1, h0] at hfl
    omega
  have hbody : Network.json_dumps_desc d
      ≠ Network.json_dumps_desc { sdp := "", type := d.type } := by
    intro hEqs
    have hfl := congrArg String.length hEqs
    simp only [Network.json_dumps_desc, String.length_append] at hfl
    have h0 : ("" : String).length = 0 := by decide
    have hz : d.sdp.length = 0 := by omega
    exact hsdp (string_eq_empty_of_length_eq_zero d.sdp hz)
  cases hpc : s.pc with
  | none =>
      refine ⟨?_,
        ⟨{ Network.newPeerConnection Network.iceServers with
            localDescription := some d }, ?_, rfl⟩, hne, hbody⟩ <;>
        simp [Network.on_controller_joined, Network.create_offer,
          Network.ensure_peer_connection, Network.init_peer_connection,
          Network.newPeerConnection, hpc]
  | some p =>
      refine ⟨?_, ⟨{ p with localDescription := some d }, ?_, rfl⟩, hne, hbody⟩ <;>
        simp [Network.on_controller_joined, Network.create_offer,
          Network.ensure_peer_connection, Network.init_peer_connection, hpc]

/-- C5 witness: a fresh client receiving controller-joined with a
successful offer of non-empty sdp body emits exactly that one offer. -/
theorem claim5_witness :
    (Except.ok { sdp := "v=0", type := "offer" }
        : Except String Network.RTCSessionDescription)
      = Except.ok { sdp := "v=0", type := "offer" } ∧
    ("v=0" : String) ≠ "" ∧
    (Network.on_controller_joined
        (Except.ok { sdp := "v=0", type := "offer" }) []
        (Network.newClient "CAR001" "http://localhost:8080"
          (fun _ => Video.initTrack 640 480 30))).emitted
      = [("offer", Network.EmitPayload.obj
          [("roomCode", "CAR001"),
            ("offer", Network.json_dumps_desc { sdp := "v=0", type := "offer" })])] :=
  ⟨rfl, by decide,
    (claim5_single_offer_emit _ { sdp := "v=0", type := "offer" } []
      (Network.newClient "CAR001" "http://localhost:8080"
        (fun _ => Video.initTrack 640 480 30)) rfl (by decide)).1⟩

/-- C6: process_command applied to the empty command mapping succeeds
(logging w = 0.0 and a = 0.0); whenever the w or a field is missing,
the value the sink uses for that field is the default 0.0. -/
theorem claim6_missing_fields_default_zero :
    Control.process_command [] = Except.ok (0, 0) ∧
    (∀ command : JsonObj, jsonGet command "w" = none →
      Control.dict_get command "w" (JsonVal.num 0) = JsonVal.num 0) ∧
    (∀ command : JsonObj, jsonGet command "a" = none →
      Control.dict_get command "a" (JsonVal.num 0) = JsonVal.num 0) ∧
    (∀ command : JsonObj, jsonGet command "w" = none →
      jsonGet command "a" = none →
      Control.process_command command = Except.ok (0, 0)) := by
  refine ⟨rfl, ?_, ?_, ?_⟩
  · intro command hw
    unfold Control.dict_get
    rw [hw]
    rfl
  · intro command ha
    unfold Control.dict_get
    rw [ha]
    rfl
  · intro command hw ha
    unfold Control.process_command Control.dict_get
    rw [hw, ha]
    rfl

/-- C6 witness: a command carrying only an unrelated field x is
processed as if both intensities were 0.0. -/
theorem claim6_witness :
    jsonGet [("x", JsonVal.num 5)] "w" = none ∧
    Control.process_command [("x", JsonVal.num 5)] = Except.ok (0, 0) :=
  ⟨by decide,
    claim6_missing_fields_default_zero.2.2.2 [("x", JsonVal.num 5)]
      (by decide) (by decide)⟩

/-- C7: the frame counter starts at 0 at construction; after n produced
frames it equals n; the frame produced at step n is stamped with the
label of counter value n; and every recv increments the counter by
exactly 1 after rendering. -/
theorem claim7_counter_strictly_increasing (ptsSeq : Nat → Nat)
    (tbSeq : Nat → ℚ) (w h fps n : Nat) :
    (Video.initTrack w h fps).counter = 0 ∧
    (Video.runTrack ptsSeq tbSeq (Video.initTrack w h fps) n).counter = n ∧
    ((Video.recv (Video.runTrack ptsSeq tbSeq (Video.initTrack w h fps) n)
        (ptsSeq n) (tbSeq n)).2).label = "Frame: " ++ toString n ∧
    ∀ (s : TrackState) (pts : Nat) (tb : ℚ),
      ((Video.recv s pts tb).1).counter = s.counter + 1 := by
  have key : ∀ m, (Video.runTrack ptsSeq tbSeq (Video.initTrack w h fps) m).counter = m := by
    intro m
    induction m with
    | zero => rfl
    | succ m ih => simp [Video.runTrack, Video.recv, ih]
  refine ⟨rfl, key n, ?_, fun s pts tb => rfl⟩
  show ("Frame: " ++
      toString (Video.runTrack ptsSeq tbSeq (Video.initTrack w h fps) n).counter)
    = "Frame: " ++ toString n
  rw [key n]

/-- C8: cleanup is idempotent on the state, closes the peer connection
only when one exists, disconnects the signaling transport only when
currently connected, is safe on a never-initialized session, and its
second call in a row performs no further disconnect. -/
theorem claim8_cleanup_idempotent (s : Network.ClientState) :
    (Network.cleanup (Network.cleanup s).1).1 = (Network.cleanup s).1 ∧
    ((Network.cleanup s).1).sio_connected = false ∧
    (s.pc = none →
      Network.CleanupAction.pcClose ∉ (Network.cleanup s).2 ∧
      ((Network.cleanup s).1).pc = none) ∧
    (∀ p, s.pc = some p →
      ((Network.cleanup s).1).pc = some (Network.pc_close p)) ∧
    (s.sio_connected = false →
      Network.CleanupAction.sioDisconnect ∉ (Network.cleanup s).2) ∧
    Network.CleanupAction.sioDisconnect ∉ (Network.cleanup (Network.cleanup s).1).2 := by
  obtain ⟨rc, url, f, sio, pc, dc, vt, em⟩ := s
  cases pc <;> cases sio <;>
    simp [Network.cleanup, Network.pc_close]

/-- C8 witness: cleanup twice on a connected, initialized client. -/
theorem claim8_witness :
    (Network.cleanup
        (Network.cleanup
          { Network.init_peer_connection
              (Network.newClient "CAR001" "http://localhost:8080"
                (fun _ => Video.initTrack 640 480 30)) with
            sio_connected := true }).1).1
      = (Network.cleanup
          { Network.init_peer_connection
              (Network.newClient "CAR001" "http://localhost:8080"
                (fun _ => Video.initTrack 640 480 30)) with
            sio_connected := true }).1 :=
  (claim8_cleanup_idempotent _).1

/-- C9: handle_ice_candidate never lets a failure escape: in every
state (in particular one where no remote description is set) and for
any two inbound candidate payloads handled in either order, both calls
return ok, and whenever the try-block body fails the caught failure
leaves the prior state. -/
theorem claim9_ice_candidates_never_raise
    (addIce : Network.RTCPeerConnection → Network.RTCIceCandidate →
      Except String Network.RTCPeerConnection)
    (s : Network.ClientState) (p1 p2 : Network.SerializedPayload)
    (_hremote : s.pc = none ∨
      ∃ pc, s.pc = some pc ∧ pc.remoteDescription = none) :
    (∃ s1 s2, Network.handle_ice_candidate addIce s p1 = Except.ok s1 ∧
      Network.handle_ice_candidate addIce s1 p2 = Except.ok s2) ∧
    (∀ (t : Network.ClientState) (q : Network.SerializedPayload) e,
      Network.handle_ice_candidate_attempt addIce t q = Except.error e →
      Network.handle_ice_candidate addIce t q = Except.ok t) := by
  have hok : ∀ (t : Network.ClientState) (q : Network.SerializedPayload),
      ∃ t1, Network.handle_ice_candidate addIce t q = Except.ok t1 := by
    intro t q
    unfold Network.handle_ice_candidate
    cases hA : Network.handle_ice_candidate_attempt addIce t q with
    | ok t1 => exact ⟨t1, rfl⟩
    | error e => exact ⟨t, rfl⟩
  constructor
  · obtain ⟨s1, h1⟩ := hok s p1
    obtain ⟨s2, h2⟩ := hok s1 p2
    exact ⟨s1, s2, h1, h2⟩
  · intro t q e hE
    unfold Network.handle_ice_candidate
    rw [hE]

/-- C9 witness: two candidates arriving before any peer connection or
remote description exists are both swallowed without raising. -/
theorem claim9_witness :
    (Network.newClient "CAR001" "http://localhost:8080"
        (fun _ => Video.initTrack 640 480 30)).pc = none ∧
    (∃ s1 s2,
      Network.handle_ice_candidate (fun p _ => Except.ok p)
          (Network.newClient "CAR001" "http://localhost:8080"
            (fun _ => Video.initTrack 640 480 30))
          (Network.SerializedPayload.object
            [("candidate", JsonVal.str "candidate:0 1 UDP 1 10.0.0.1 50000 typ host"),
              ("sdpMid", JsonVal.str "0"), ("sdpMLineIndex", JsonVal.num 0)])
        = Except.ok s1 ∧
      Network.handle_ice_candidate (fun p _ => Except.ok p) s1
          Network.SerializedPayload.absent
        = Except.ok s2) :=
  ⟨rfl,
    (claim9_ice_candidates_never_raise (fun p _ => Except.ok p)
      (Network.newClient "CAR001" "http://localhost:8080"
        (fun _ => Video.initTrack 640 480 30))
      (Network.SerializedPayload.object
        [("candidate", JsonVal.str "candidate:0 1 UDP 1 10.0.0.1 50000 typ host"),
          ("sdpMid", JsonVal.str "0"), ("sdpMLineIndex", JsonVal.num 0)])
      Network.SerializedPayload.absent (Or.inl rfl)).1⟩

/-- C10: the legacy frame generator embedded in rc_car.py and the
modular one in src/video/test_pattern.py are equivalent: from every
equal state both recv implementations produce the identical frame
(pixel raster, label, timestamps) and the identical successor state,
and both constructors agree. -/
theorem claim10_legacy_modular_equivalent :
    (∀ (s : TrackState) (pts : Nat) (tb : ℚ),
      Legacy.recv s pts tb = Video.recv s pts tb) ∧
    (∀ w h fps, Legacy.initTrack w h fps = Video.initTrack w h fps) :=
  ⟨fun _s _pts _tb => rfl, fun _w _h _fps => rfl⟩

end Theorems

end RcCar
